import Mathlib

/-!
Verification of the script-generation and record-resolution layer of an
MCP server wrapping the DEVONthink desktop application.

The pure TypeScript functions (input validation, script synthesis, the
dispatcher) and the meaning of the generated JXA scripts are shallowly
embedded as Lean definitions.  The external DEVONthink application is
modelled as an explicit `AppState`; each tool's `run` function becomes a
Lean function from an `AppState` and a validated input to a typed result,
a possibly updated state, and a flag recording whether a script was
synthesized and executed.  JavaScript truthiness on interpolated values
(empty string and `0` are falsy) is modelled explicitly.
-/

namespace DtMcp

/-- Control characters the sanitizer's allow-list admits.
Modelled from the spec: `src/utils/escapeString.ts` is not among the
provided sources.  The spec's String Sanitizer section says newline is
permitted while ASCII control characters outside an allow-list are
rejected. -/
def allowedControlChars : List Char := ['\n', '\t', '\r']

/-- A control character outside the allow-list. -/
def isDisallowedControl (c : Char) : Bool :=
  (c.toNat < 32 || c.toNat == 127) && !(allowedControlChars.contains c)

/-- Sanitizer predicate.  Modelled from the spec: `isJXASafeString` of the
missing `src/utils/escapeString.ts`.  Per the spec's testable property 1,
every string containing a double quote, a backslash, or a disallowed
control character is unsafe. -/
def isJXASafeString (s : String) : Bool :=
  s.data.all fun c => !(c == '"') && !(c == '\\') && !(isDisallowedControl c)

/-- Escape a single character for inclusion in a double-quoted JXA string
literal.  Modelled from the spec: `escapeStringForJXA` of the missing
`src/utils/escapeString.ts` escapes backslashes, double quotes, and
characters with special meaning in the string-literal grammar. -/
def escapeJXAChar (c : Char) : String :=
  if c == '\\' then "\\\\"
  else if c == '"' then "\\\""
  else if c == '\n' then "\\n"
  else if c == '\t' then "\\t"
  else if c == '\r' then "\\r"
  else String.singleton c

/-- Modelled from the spec: `escapeStringForJXA` of the missing
`src/utils/escapeString.ts`. -/
def escapeStringForJXA (s : String) : String :=
  String.join (s.data.map escapeJXAChar)

/-- Modelled from the spec: `escapeSearchQuery` of the missing
`src/utils/escapeString.ts`; the spec only says the search query is
escaped before interpolation, so it reuses the string escaper. -/
def escapeSearchQuery (s : String) : String :=
  escapeStringForJXA s

/-- Whether the first character list is a leading segment of the second. -/
def leadsWith : List Char → List Char → Bool
  | [], _ => true
  | _ :: _, [] => false
  | a :: as, b :: bs => a == b && leadsWith as bs

/-- Whether `needle` occurs contiguously inside the character list. -/
def occursChars (needle : List Char) : List Char → Bool
  | [] => leadsWith needle []
  | b :: t => leadsWith needle (b :: t) || occursChars needle t

/-- `occursStr needle hay` decides whether `needle` occurs in `hay`. -/
def occursStr (needle hay : String) : Bool :=
  occursChars needle.data hay.data

/-- Substring containment as a proposition. -/
def StrContains (hay needle : String) : Prop :=
  ∃ pre post, hay = pre ++ needle ++ post

/-- A typed value to be rendered as a JXA source expression. -/
inductive JXAValue where
  | nullV
  | strV (s : String)
  | numV (n : Int)
  | boolV (b : Bool)
  | arrV (xs : List JXAValue)
  | objV (kvs : List (String × JXAValue))
  deriving Repr

mutual

/-- Value Formatter.  Modelled from the spec: `formatValueForJXA` of the
missing `src/utils/escapeString.ts`.  Strings become quoted escaped
literals, numbers and booleans become literal tokens, arrays become
bracketed comma-joined sequences, and a structured object becomes a
self-invoking block that declares an empty object, assigns every key via
bracket assignment, and returns the bound identifier (never a direct
object-literal expression). -/
def formatValueForJXA : JXAValue → String
  | .nullV => "null"
  | .strV s => "\"" ++ escapeStringForJXA s ++ "\""
  | .numV n => toString n
  | .boolV b => if b then "true" else "false"
  | .arrV xs => "[" ++ formatJXAArray xs ++ "]"
  | .objV kvs =>
      "(() => \x7b const obj = \x7b\x7d; " ++ formatJXAAssigns kvs ++ "return obj; \x7d)()"

/-- Comma-joined rendering of array elements. -/
def formatJXAArray : List JXAValue → String
  | [] => ""
  | [x] => formatValueForJXA x
  | x :: y :: xs => formatValueForJXA x ++ ", " ++ formatJXAArray (y :: xs)

/-- Bracket-assignment fragments for the keys of a structured object. -/
def formatJXAAssigns : List (String × JXAValue) → String
  | [] => ""
  | kv :: kvs =>
      "obj[\"" ++ kv.1 ++ "\"] = " ++ formatValueForJXA kv.2 ++ "; " ++ formatJXAAssigns kvs

end

/-- JavaScript truthiness for an optional string: the empty string is
falsy, so TypeScript-level interpolation guards `x ? "..." : "null"`
collapse an empty string to the absent value. -/
def jsNonEmpty : Option String → Option String
  | some s => if s.isEmpty then none else some s
  | none => none

/-- JavaScript truthiness for an optional number: `0` is falsy. -/
def jsNonZero : Option Int → Option Int
  | some i => if i == 0 then none else some i
  | none => none

/-- A record inside the external application, as observable through the
scripting interface. -/
structure DtRecord where
  id : Int
  uuid : String
  name : String
  recordType : String
  kind : String := ""
  path : String := ""
  location : String := ""
  tags : List String := []
  size : Int := 0
  databaseName : String := ""
  creationDate : Option String := none
  modificationDate : Option String := none
  url : Option String := none
  comment : Option String := none
  score : Option Int := none
  deriving Repr, DecidableEq

/-- An open database of the external application. -/
structure DtDatabase where
  name : String
  deriving Repr, DecidableEq

/-- The scope handed to the external application's search call. -/
inductive SearchScope where
  | all
  | database (name : String)
  | databaseRoot (name : String)
  | group (uuid : String)
  deriving Repr, DecidableEq

/-- The observable state of the external DEVONthink application, together
with oracles for the behaviour it alone controls (search results, lookup
results, and whether a delete/move call reports success). -/
structure AppState where
  databases : List DtDatabase
  records : List DtRecord
  currentDatabaseName : Option String := none
  currentGroupUuid : Option String := none
  version41OrLater : Bool := true
  deleteReturns : Bool := true
  moveReturns : Bool := true
  appSearch : String → SearchScope → Option String → Option Bool → List DtRecord :=
    fun _ _ _ _ => []
  lookupByAttr : String → String → Option String → List DtRecord := fun _ _ _ => []
  lookupByTags : List String → Bool → Option String → List DtRecord := fun _ _ _ => []

/-- `theApp.getRecordWithUuid`: global lookup by UUID. -/
def findRecordByUuid (st : AppState) (u : String) : Option DtRecord :=
  st.records.find? fun r => r.uuid == u

/-- Database resolution by name as written inline in `lookupRecord.ts` and
`createRecord.ts`: `databases.find(db => db.name() === name)` — the first
currently open database whose name equals the given name exactly. -/
def findDatabase (dbs : List DtDatabase) (name : String) : Option DtDatabase :=
  dbs.find? fun db => db.name == name

/-- The currently active database, if any. -/
def currentDatabase (st : AppState) : Option DtDatabase :=
  st.currentDatabaseName.bind (findDatabase st.databases)

/-- Database Resolver helper.  Modelled from the spec: `getDatabase` of the
missing `src/utils/jxaHelpers.ts`.  With a name it returns the first open
database matching exactly or fails with a named-database-not-found error;
with no name it yields the currently active database (possibly absent, so
that callers such as `search` can fall back to an all-databases scope). -/
def getDatabase (st : AppState) : Option String → Except String (Option DtDatabase)
  | some name =>
      match findDatabase st.databases name with
      | some db => .ok (some db)
      | none => .error ("Database not found: " ++ name)
  | none => .ok (currentDatabase st)

/-- The options bundle passed to the injected `getRecord` helper. -/
structure LookupOptions where
  uuid : Option String := none
  id : Option Int := none
  path : Option String := none
  name : Option String := none
  database : Option DtDatabase := none

/-- The `{record, error}` outcome of the injected `getRecord` helper. -/
structure LookupOutcome where
  record : Option DtRecord := none
  error : Option String := none
  deriving Repr, DecidableEq

/-- Record Resolver helper.  Modelled from the spec: `getRecord` of the
injected helpers in the missing `src/utils/jxaHelpers.ts`.  Precedence is
UUID (global, ignores the database) over ID+database over path+database;
name lookup is accepted last because callers such as `moveRecord.ts` pass
a `name` option.  Not-found errors include the identifier value and, for
ID and path lookups, the database name. -/
def getRecord (st : AppState) (opts : LookupOptions) : LookupOutcome :=
  match opts.uuid with
  | some u =>
      match findRecordByUuid st u with
      | some r => { record := some r }
      | none => { record := none, error := some ("Record with UUID " ++ u ++ " not found") }
  | none =>
      match opts.id with
      | some i =>
          match opts.database with
          | some db =>
              match st.records.find? (fun r => r.id == i && r.databaseName == db.name) with
              | some r => { record := some r }
              | none =>
                  { record := none
                    error := some ("Record with ID " ++ toString i ++
                      " not found in database \x27" ++ db.name ++ "\x27") }
          | none => { record := none, error := some "No database for ID lookup" }
      | none =>
          match opts.path with
          | some p =>
              match opts.database with
              | some db =>
                  match st.records.find?
                      (fun r => r.databaseName == db.name && (r.location ++ r.name) == p) with
                  | some r => { record := some r }
                  | none =>
                      { record := none
                        error := some ("Record at path " ++ p ++
                          " not found in database \x27" ++ db.name ++ "\x27") }
              | none => { record := none, error := some "No database for path lookup" }
          | none =>
              match opts.name with
              | some n =>
                  match opts.database with
                  | some db =>
                      match st.records.find?
                          (fun r => r.databaseName == db.name && r.name == n) with
                      | some r => { record := some r }
                      | none =>
                          { record := none
                            error := some ("Record with name " ++ n ++ " not found") }
                  | none => { record := none, error := some "No database for name lookup" }
              | none => { record := none, error := some "No identifier provided" }

/-- The caller-facing Identifier Bundle of the Record Resolver contract. -/
structure IdentifierBundle where
  uuid : Option String := none
  id : Option Int := none
  path : Option String := none
  databaseName : Option String := none

/-- Record Resolver contract.  Modelled from the spec: `resolve(options:
IdentifierBundle) -> \x7brecord, error\x7d` — UUID is looked up globally;
an ID or path lookup first resolves the database by name (or falls back
to the current database) and reports `Database not found: <name>` when no
open database matches. -/
def resolveRecordSpec (st : AppState) (b : IdentifierBundle) : LookupOutcome :=
  match b.uuid with
  | some u =>
      match findRecordByUuid st u with
      | some r => { record := some r }
      | none => { record := none, error := some ("Record with UUID " ++ u ++ " not found") }
  | none =>
      match b.id, b.path with
      | none, none => { record := none, error := some "No identifier provided" }
      | _, _ =>
          match getDatabase st b.databaseName with
          | .error e => { record := none, error := some e }
          | .ok none => { record := none, error := some "No current database" }
          | .ok (some db) =>
              getRecord st { id := b.id, path := b.path, database := some db }

/-- Replace the first record satisfying `p` (the handle the generated
script mutates) by its image under `f`. -/
def updateFirstRecord (p : DtRecord → Bool) (f : DtRecord → DtRecord) :
    List DtRecord → List DtRecord
  | [] => []
  | r :: rs => if p r then f r :: rs else r :: updateFirstRecord p f rs

/-- The outcome of running one tool: the typed result parsed back from the
script's JSON, the possibly updated application state, and whether a
script was synthesized and executed at all (validation failures return
before any script exists). -/
structure RunOut (R : Type) where
  result : R
  state : AppState
  ranScript : Bool

/-- The `{success, error?}` result shape shared by several tools. -/
structure SimpleResult where
  success : Bool
  error : Option String := none
  deriving Repr, DecidableEq

/-- Validated input of `rename_record` (`renameRecord.ts`). -/
structure RenameRecordInput where
  uuid : String
  newName : String
  databaseName : Option String := none

/-- `renameRecord.ts`: validate the string inputs, then run the generated
script — resolve the record by UUID via the injected `getRecord`, verify
the database when a `databaseName` was supplied, and set the record's
name. -/
def renameRecordRun (st : AppState) (inp : RenameRecordInput) : RunOut SimpleResult :=
  if !(isJXASafeString inp.uuid) then
    ⟨{ success := false, error := some "UUID contains invalid characters" }, st, false⟩
  else if !(isJXASafeString inp.newName) then
    ⟨{ success := false, error := some "New name contains invalid characters" }, st, false⟩
  else if inp.databaseName.any (fun d => !(isJXASafeString d)) then
    ⟨{ success := false, error := some "Database name contains invalid characters" }, st, false⟩
  else
    let pUuid := jsNonEmpty (some inp.uuid)
    let lookupResult := getRecord st { uuid := pUuid }
    match lookupResult.record with
    | none =>
        ⟨{ success := false
           error := some ("Record with UUID " ++ pUuid.getD "unknown" ++ " not found") },
         st, true⟩
    | some record =>
        match jsNonEmpty inp.databaseName with
        | some pDatabaseName =>
            if record.databaseName != pDatabaseName then
              ⟨{ success := false
                 error := some ("Record with UUID " ++ pUuid.getD "unknown" ++
                   " not found in database " ++ pDatabaseName) },
               st, true⟩
            else
              let records' := updateFirstRecord (fun r => r.uuid == record.uuid)
                (fun r => { r with name := inp.newName }) st.records
              ⟨{ success := true }, { st with records := records' }, true⟩
        | none =>
            let records' := updateFirstRecord (fun r => r.uuid == record.uuid)
              (fun r => { r with name := inp.newName }) st.records
            ⟨{ success := true }, { st with records := records' }, true⟩

/-- Validated input of `remove_tags` (`removeTags.ts`). -/
structure RemoveTagsInput where
  uuid : String
  tags : List String
  databaseName : Option String := none

/-- `existingTags.filter(tag => !tagsToRemove.has(tag))` from the
`remove_tags` script. -/
def removeTagFilter (tagsToRemove existingTags : List String) : List String :=
  existingTags.filter fun tag => !(tagsToRemove.contains tag)

/-- The state mutation `record.tags = newTags` performs inside the
`remove_tags` script: the found record's tags become the existing tags
filtered against the removal set (`new Set(tags)` membership). -/
def applyRemoveTags (st : AppState) (record : DtRecord) (tags : List String) : AppState :=
  let newTags := removeTagFilter tags record.tags
  let records' := updateFirstRecord (fun r => r.uuid == record.uuid)
    (fun r => { r with tags := newTags }) st.records
  { st with records := records' }

/-- `removeTags.ts`: validate the string inputs, then run the generated
script — resolve the record by UUID, verify the database when supplied,
and set the record's tags to the existing tags filtered against the
removal set (`existingTags.filter(tag => !tagsToRemove.has(tag))`). -/
def removeTagsRun (st : AppState) (inp : RemoveTagsInput) : RunOut SimpleResult :=
  if !(isJXASafeString inp.uuid) then
    ⟨{ success := false, error := some "UUID contains invalid characters" }, st, false⟩
  else
    match inp.tags.find? (fun t => !(isJXASafeString t)) with
    | some t =>
        ⟨{ success := false
           error := some ("Tag \"" ++ t ++ "\" contains invalid characters") }, st, false⟩
    | none =>
        if inp.databaseName.any (fun d => !(isJXASafeString d)) then
          ⟨{ success := false, error := some "Database name contains invalid characters" },
           st, false⟩
        else
          let pUuid := jsNonEmpty (some inp.uuid)
          let lookupResult := getRecord st { uuid := pUuid }
          match lookupResult.record with
          | none =>
              ⟨{ success := false
                 error := some ("Record with UUID " ++ pUuid.getD "unknown" ++ " not found") },
               st, true⟩
          | some record =>
              if (jsNonEmpty inp.databaseName).any (fun d => record.databaseName != d) then
                ⟨{ success := false
                   error := some ("Record with UUID " ++ pUuid.getD "unknown" ++
                     " not found in database " ++ (jsNonEmpty inp.databaseName).getD "unknown") },
                 st, true⟩
              else
                ⟨{ success := true }, applyRemoveTags st record inp.tags, true⟩

/-- Validated input of `get_record_by_identifier` (part_005). -/
structure GetRecordByIdInput where
  uuid : Option String := none
  id : Option Int := none
  databaseName : Option String := none

/-- The flattened record payload extracted field by field by the generated
scripts (`targetRecord.id()`, `targetRecord.uuid()`, …); `url` and
`comment` are added only when truthy. -/
structure RecordInfo where
  id : Int
  uuid : String
  name : String
  path : String
  location : String
  recordType : String
  kind : String
  database : String
  creationDate : Option String
  modificationDate : Option String
  tags : List String
  size : Int
  url : Option String := none
  comment : Option String := none
  deriving Repr, DecidableEq

/-- Field-by-field extraction of a record into plain data, as written in
the `get_record_by_identifier` script. -/
def extractRecordInfo (r : DtRecord) (dbName : String) : RecordInfo :=
  { id := r.id, uuid := r.uuid, name := r.name, path := r.path, location := r.location,
    recordType := r.recordType, kind := r.kind, database := dbName,
    creationDate := r.creationDate, modificationDate := r.modificationDate,
    tags := r.tags, size := r.size,
    url := jsNonEmpty r.url, comment := jsNonEmpty r.comment }

/-- Result shape of `get_record_by_identifier`. -/
structure RecordIdResult where
  success : Bool
  error : Option String := none
  record : Option RecordInfo := none
  deriving Repr, DecidableEq

/-- `get_record_by_identifier` (part_005): validate `uuid` and
`databaseName`, then run the generated script.  A truthy `uuid` takes the
global UUID-lookup branch (the record's own database supplies the
`database` field); otherwise a truthy `id` together with a truthy
`databaseName` resolves the database by name and looks up by
ID+database.  If neither guard holds the script dereferences the
undefined `targetRecord` and the catch block reports the thrown
TypeError. -/
def getRecordByIdentifierRun (st : AppState) (inp : GetRecordByIdInput) :
    RunOut RecordIdResult :=
  if inp.uuid.any (fun u => !(isJXASafeString u)) then
    ⟨{ success := false, error := some "UUID contains invalid characters" }, st, false⟩
  else if inp.databaseName.any (fun d => !(isJXASafeString d)) then
    ⟨{ success := false, error := some "Database name contains invalid characters" }, st, false⟩
  else
    match jsNonEmpty inp.uuid with
    | some u =>
        let lookupResult := getRecord st { uuid := some u }
        match lookupResult.record with
        | none =>
            ⟨{ success := false, error := some ("Record with UUID " ++ u ++ " not found") },
             st, true⟩
        | some r =>
            ⟨{ success := true, record := some (extractRecordInfo r r.databaseName) }, st, true⟩
    | none =>
        match jsNonZero inp.id, jsNonEmpty inp.databaseName with
        | some i, some dbn =>
            match getDatabase st (some dbn) with
            | .error e => ⟨{ success := false, error := some ("Error: " ++ e) }, st, true⟩
            | .ok none => ⟨{ success := false, error := some "Error: No current database" },
                st, true⟩
            | .ok (some db) =>
                let lookupResult := getRecord st { id := some i, database := some db }
                match lookupResult.record with
                | none =>
                    ⟨{ success := false
                       error := some ("Record with ID " ++ toString i ++
                         " not found in database \x27" ++ dbn ++ "\x27") }, st, true⟩
                | some r =>
                    ⟨{ success := true, record := some (extractRecordInfo r db.name) }, st, true⟩
        | _, _ =>
            ⟨{ success := false, error := some "Error: TypeError: undefined is not an object" },
             st, true⟩

/-- Validated input of `delete_record` (`deleteRecord.ts`). -/
structure DeleteRecordInput where
  uuid : Option String := none
  recordId : Option Int := none
  recordPath : Option String := none
  databaseName : Option String := none

/-- `deleteRecord.ts`: validate the string inputs, then run the generated
script — resolve the target database, look the record up through the
injected `getRecord`, and call `theApp.delete`.  The script returns
`JSON.stringify(\x7b success: deleteResult \x7d)`: the boolean the
external delete call reports, with no `error` key on that path. -/
def deleteRecordRun (st : AppState) (inp : DeleteRecordInput) : RunOut SimpleResult :=
  if inp.uuid.any (fun u => !(isJXASafeString u)) then
    ⟨{ success := false, error := some "UUID contains invalid characters" }, st, false⟩
  else if inp.recordPath.any (fun p => !(isJXASafeString p)) then
    ⟨{ success := false, error := some "Record path contains invalid characters" }, st, false⟩
  else if inp.databaseName.any (fun d => !(isJXASafeString d)) then
    ⟨{ success := false, error := some "Database name contains invalid characters" }, st, false⟩
  else
    match getDatabase st (jsNonEmpty inp.databaseName) with
    | .error e => ⟨{ success := false, error := some ("Error: " ++ e) }, st, true⟩
    | .ok targetDatabase =>
        let lookupResult := getRecord st
          { uuid := jsNonEmpty inp.uuid, id := inp.recordId,
            path := jsNonEmpty inp.recordPath, name := none, database := targetDatabase }
        match lookupResult.record with
        | none =>
            let errorDetails :=
              match jsNonZero inp.recordId with
              | some i =>
                  match targetDatabase with
                  | some td => "Record with ID " ++ toString i ++
                      " not found in database \x27" ++ td.name ++ "\x27"
                  | none => "Error: TypeError: undefined is not an object"
              | none =>
                  match jsNonEmpty inp.uuid with
                  | some u => "Record with UUID " ++ u ++ " not found"
                  | none =>
                      match jsNonEmpty inp.recordPath with
                      | some p => "Record at DEVONthink location path " ++ p ++ " not found"
                      | none => lookupResult.error.getD "Record not found"
            ⟨{ success := false, error := some errorDetails }, st, true⟩
        | some targetRecord =>
            let st' :=
              if st.deleteReturns then
                { st with records := st.records.filter fun r => !(r.uuid == targetRecord.uuid) }
              else st
            ⟨{ success := st.deleteReturns, error := none }, st', true⟩

/-- Validated input of `move_record` (part_004). -/
structure MoveRecordInput where
  uuid : Option String := none
  recordId : Option Int := none
  recordName : Option String := none
  recordPath : Option String := none
  destinationGroupUuid : Option String := none
  databaseName : Option String := none

/-- Result shape of `move_record`. -/
structure MoveResult where
  success : Bool
  newLocation : Option String := none
  error : Option String := none
  deriving Repr, DecidableEq

/-- `move_record` (part_004): validate the string inputs, then run the
generated script — resolve the target database and the record to move,
resolve the destination group by UUID (throwing `Destination group with
UUID not found: …` when it does not resolve), verify the destination's
record type is `group` or `smart group` (throwing `Destination is not a
group. Record type: …` otherwise), and only then call `theApp.move`.
Thrown errors surface through the catch block as `Error: <message>`. -/
def moveRecordRun (st : AppState) (inp : MoveRecordInput) : RunOut MoveResult :=
  if inp.uuid.any (fun u => !(isJXASafeString u)) then
    ⟨{ success := false, error := some "UUID contains invalid characters" }, st, false⟩
  else if inp.recordName.any (fun n => !(isJXASafeString n)) then
    ⟨{ success := false, error := some "Record name contains invalid characters" }, st, false⟩
  else if inp.recordPath.any (fun p => !(isJXASafeString p)) then
    ⟨{ success := false, error := some "Record path contains invalid characters" }, st, false⟩
  else if inp.destinationGroupUuid.any (fun d => !(isJXASafeString d)) then
    ⟨{ success := false, error := some "Destination UUID contains invalid characters" },
     st, false⟩
  else if inp.databaseName.any (fun d => !(isJXASafeString d)) then
    ⟨{ success := false, error := some "Database name contains invalid characters" }, st, false⟩
  else
    match getDatabase st (jsNonEmpty inp.databaseName) with
    | .error e => ⟨{ success := false, error := some ("Error: " ++ e) }, st, true⟩
    | .ok targetDatabase =>
        let lookupResult := getRecord st
          { uuid := jsNonEmpty inp.uuid, id := inp.recordId,
            path := jsNonEmpty inp.recordPath, name := jsNonEmpty inp.recordName,
            database := targetDatabase }
        match lookupResult.record with
        | none =>
            let errorDetails :=
              match jsNonZero inp.recordId with
              | some i =>
                  match targetDatabase with
                  | some td => "Record with ID " ++ toString i ++
                      " not found in database \x27" ++ td.name ++ "\x27"
                  | none => "Error: TypeError: undefined is not an object"
              | none => lookupResult.error.getD "Record not found"
            ⟨{ success := false, error := some errorDetails }, st, true⟩
        | some targetRecord =>
            let pDestinationGroupUuid := jsNonEmpty inp.destinationGroupUuid
            match pDestinationGroupUuid.bind (findRecordByUuid st) with
            | none =>
                ⟨{ success := false
                   error := some ("Error: Destination group with UUID not found: " ++
                     pDestinationGroupUuid.getD "unknown") }, st, true⟩
            | some destinationGroupRecord =>
                if destinationGroupRecord.recordType != "group" &&
                    destinationGroupRecord.recordType != "smart group" then
                  ⟨{ success := false
                     error := some ("Error: Destination is not a group. Record type: " ++
                       destinationGroupRecord.recordType) }, st, true⟩
                else
                  if st.moveReturns then
                    let newLocation := destinationGroupRecord.location ++
                      destinationGroupRecord.name ++ "/"
                    let records' := updateFirstRecord (fun r => r.uuid == targetRecord.uuid)
                      (fun r => { r with location := newLocation }) st.records
                    ⟨{ success := true, newLocation := some newLocation },
                     { st with records := records' }, true⟩
                  else
                    ⟨{ success := false, error := some "Failed to move record" }, st, true⟩

/-- Group check.  Modelled from the spec: `isGroup` of the missing
`src/utils/jxaHelpers.ts`; a group is a record whose type is `group` or
`smart group` (the same test `move_record` writes inline). -/
def isGroupRecord (r : DtRecord) : Bool :=
  r.recordType == "group" || r.recordType == "smart group"

/-- JavaScript `list.slice(0, e)`: a negative end counts from the end of
the list, saturating at zero. -/
def jsSliceTo {α : Type} (l : List α) (e : Int) : List α :=
  if e < 0 then l.take ((l.length + e).toNat) else l.take e.toNat

/-- The search scope the search script selects when no group parameter is
given: the root of the target database (4.1 and later), the database
itself (before 4.1), or all databases when no database is available. -/
def scopeForDatabase (st : AppState) (targetDatabase : Option DtDatabase) : SearchScope :=
  match targetDatabase with
  | some td => if st.version41OrLater then .databaseRoot td.name else .database td.name
  | none => .all

/-- Validated input of `search` (`search.ts`). -/
structure SearchInput where
  query : String
  groupUuid : Option String := none
  groupId : Option Int := none
  groupPath : Option String := none
  databaseName : Option String := none
  useCurrentGroup : Option Bool := none
  recordType : Option String := none
  comparison : Option String := none
  excludeSubgroups : Option Bool := none
  limit : Option Int := none

/-- One search result as extracted field by field by the search script. -/
structure SearchHit where
  id : Int
  uuid : String
  name : String
  path : String
  location : String
  recordType : String
  kind : String
  creationDate : Option String
  modificationDate : Option String
  tags : List String
  size : Int
  score : Option Int := none
  deriving Repr, DecidableEq

/-- Field-by-field extraction written in the search script's map. -/
def extractSearchHit (r : DtRecord) : SearchHit :=
  { id := r.id, uuid := r.uuid, name := r.name, path := r.path, location := r.location,
    recordType := r.recordType, kind := r.kind,
    creationDate := r.creationDate, modificationDate := r.modificationDate,
    tags := r.tags, size := r.size, score := r.score }

/-- Result shape of `search`. -/
structure SearchResultOut where
  success : Bool
  error : Option String := none
  results : Option (List SearchHit) := none
  totalCount : Option Nat := none
  deriving Repr, DecidableEq

/-- `search.ts`: validate the string inputs, then run the generated script
— resolve the target database, determine the search scope (current group,
an explicitly identified group, the database root, or all databases),
call the external search, optionally filter by record type, slice the
filtered list to the first `limit` elements (default 50), and report the
full filtered count as `totalCount`. -/
def searchRun (st : AppState) (inp : SearchInput) : RunOut SearchResultOut :=
  let pLimit := inp.limit.getD 50
  if !(isJXASafeString inp.query) then
    ⟨{ success := false, error := some "Search query contains invalid characters" }, st, false⟩
  else if inp.groupUuid.any (fun u => !(isJXASafeString u)) then
    ⟨{ success := false, error := some "Group UUID contains invalid characters" }, st, false⟩
  else if inp.groupPath.any (fun p => !(isJXASafeString p)) then
    ⟨{ success := false, error := some "Group path contains invalid characters" }, st, false⟩
  else if inp.databaseName.any (fun d => !(isJXASafeString d)) then
    ⟨{ success := false, error := some "Database name contains invalid characters" }, st, false⟩
  else
    let pGroupUuid := jsNonEmpty inp.groupUuid
    let pGroupId := jsNonZero inp.groupId
    let pGroupPath := jsNonEmpty inp.groupPath
    let pUseCurrentGroup := inp.useCurrentGroup.getD false
    let pRecordType := jsNonEmpty inp.recordType
    let pComparison := jsNonEmpty inp.comparison
    match getDatabase st (jsNonEmpty inp.databaseName) with
    | .error e => ⟨{ success := false, error := some ("Error: " ++ e) }, st, true⟩
    | .ok targetDatabase =>
        let scopeOutcome : Except SearchResultOut SearchScope :=
          if pUseCurrentGroup then
            match st.currentGroupUuid.bind (findRecordByUuid st) with
            | none => .error
                { success := false, error := some "No group is currently selected in DEVONthink" }
            | some g =>
                if !(isGroupRecord g) then
                  .error { success := false
                           error := some ("Current selection is not a group. Type: " ++
                             g.recordType) }
                else .ok (.group g.uuid)
          else if pGroupUuid.isSome || pGroupId.isSome || pGroupPath.isSome then
            let lookupResult := getRecord st
              { uuid := pGroupUuid, id := pGroupId, path := pGroupPath,
                database := targetDatabase }
            match lookupResult.record with
            | none =>
                let errorDetails :=
                  match pGroupUuid with
                  | some u => "Group with UUID not found: " ++ u
                  | none =>
                      match pGroupId with
                      | some i => "Group with ID " ++ toString i ++
                          " not found in database \x27" ++
                          ((targetDatabase.map DtDatabase.name).getD "Unknown") ++ "\x27"
                      | none =>
                          match pGroupPath with
                          | some p => "Group at path not found: " ++ p
                          | none => lookupResult.error.getD "Group not found"
                .error { success := false, error := some errorDetails }
            | some g =>
                if !(isGroupRecord g) then
                  .error { success := false
                           error := some ("Specified record is not a group. Type: " ++
                             g.recordType) }
                else .ok (.group g.uuid)
          else
            .ok (scopeForDatabase st targetDatabase)
        match scopeOutcome with
        | .error res => ⟨res, st, true⟩
        | .ok searchScope =>
            let searchResults :=
              st.appSearch inp.query searchScope pComparison inp.excludeSubgroups
            if searchResults.isEmpty then
              ⟨{ success := true, results := some [], totalCount := some 0 }, st, true⟩
            else
              let filteredResults :=
                match pRecordType with
                | some t => searchResults.filter fun r => r.recordType == t
                | none => searchResults
              let limitedResults := jsSliceTo filteredResults pLimit
              ⟨{ success := true, results := some (limitedResults.map extractSearchHit),
                 totalCount := some filteredResults.length }, st, true⟩

/-- Validated input of `lookup_record` (`lookupRecord.ts`). -/
structure LookupRecordInput where
  lookupType : String
  value : String
  tags : Option (List String) := none
  matchAnyTag : Option Bool := none
  databaseName : Option String := none
  limit : Option Int := none

/-- One lookup result as extracted by the lookup script (no uuid field). -/
structure LookupHit where
  id : Int
  name : String
  path : String
  location : String
  recordType : String
  kind : String
  creationDate : Option String
  modificationDate : Option String
  tags : List String
  size : Int
  url : Option String := none
  comment : Option String := none
  deriving Repr, DecidableEq

/-- Field-by-field extraction written in the lookup script's map. -/
def extractLookupHit (r : DtRecord) : LookupHit :=
  { id := r.id, name := r.name, path := r.path, location := r.location,
    recordType := r.recordType, kind := r.kind,
    creationDate := r.creationDate, modificationDate := r.modificationDate,
    tags := r.tags, size := r.size, url := jsNonEmpty r.url, comment := jsNonEmpty r.comment }

/-- Result shape of `lookup_record`. -/
structure LookupResultOut where
  success : Bool
  error : Option String := none
  results : Option (List LookupHit) := none
  totalCount : Option Nat := none
  deriving Repr, DecidableEq

/-- `lookupRecord.ts` (no sanitizer validation): the generated script
resolves the search database inline — the first open database whose name
matches exactly, returning `Database not found: <name>` when none does —
then performs the attribute lookup, slices to the first `limit` elements
(default 50) and reports the full count. -/
def lookupRecordRun (st : AppState) (inp : LookupRecordInput) : RunOut LookupResultOut :=
  let limit := inp.limit.getD 50
  let searchDatabase : Except LookupResultOut (Option DtDatabase) :=
    match jsNonEmpty inp.databaseName with
    | some dbn =>
        match findDatabase st.databases dbn with
        | some db => .ok (some db)
        | none => .error { success := false, error := some ("Database not found: " ++ dbn) }
    | none => .ok (currentDatabase st)
  match searchDatabase with
  | .error res => ⟨res, st, true⟩
  | .ok db =>
      let dbName := db.map DtDatabase.name
      let searchResults : Except LookupResultOut (List DtRecord) :=
        if inp.lookupType == "filename" || inp.lookupType == "path" ||
            inp.lookupType == "url" || inp.lookupType == "comment" ||
            inp.lookupType == "contentHash" then
          .ok (st.lookupByAttr inp.lookupType inp.value dbName)
        else if inp.lookupType == "tags" then
          let tagArray₀ := inp.tags.getD []
          let tagArray := if tagArray₀.isEmpty && !inp.value.isEmpty
            then [inp.value] else tagArray₀
          .ok (st.lookupByTags tagArray (inp.matchAnyTag.getD false) dbName)
        else
          .error { success := false
                   error := some ("Invalid lookup type: " ++ inp.lookupType) }
      match searchResults with
      | .error res => ⟨res, st, true⟩
      | .ok rs =>
          if rs.isEmpty then
            ⟨{ success := true, results := some [], totalCount := some 0 }, st, true⟩
          else
            let limitedResults := jsSliceTo rs limit
            ⟨{ success := true, results := some (limitedResults.map extractLookupHit),
               totalCount := some rs.length }, st, true⟩

/-- An entry of the dispatcher's tool table: a tool name and its `run`
function (`none` models an entry whose `run` is not a function). -/
structure ToolEntry where
  name : String
  run : Option (String → String)

/-- What the `CallToolRequest` handler does with a request. -/
inductive DispatchOutcome where
  | methodNotFound (message : String)
  | internalError (message : String)
  | ran (output : String)
  deriving Repr, DecidableEq

/-- The dispatcher from `createServer`: look the tool up by name in the
table; an unknown name becomes a `MethodNotFound` error (`Unknown tool:
<name>`) before any tool's `run` function is touched; an entry without a
run function becomes an internal error; otherwise the tool's `run` is
invoked on the argument bag. -/
def dispatchToolCall (tools : List ToolEntry) (name : String) (args : String) :
    DispatchOutcome :=
  match tools.find? (fun t => t.name == name) with
  | none => .methodNotFound ("Unknown tool: " ++ name)
  | some t =>
      match t.run with
      | none => .internalError ("Tool \x27" ++ name ++ "\x27 has no run function.")
      | some runFn => .ran (runFn args)

/-- The names of the 28 tools registered in `createServer`'s table, in
registration order. -/
def devonthinkToolNames : List String :=
  ["is_running", "create_record", "delete_record", "move_record",
   "get_record_properties", "get_record_by_identifier", "search", "lookup_record",
   "create_from_url", "get_open_databases", "current_database", "selected_records",
   "list_group_content", "get_record_content", "rename_record", "add_tags",
   "remove_tags", "classify", "compare", "replicate_record", "duplicate_record",
   "convert_record", "update_record_content", "set_record_properties",
   "ask_ai_about_documents", "check_ai_health", "create_summary_document",
   "get_ai_tool_documentation"]

/-- The dispatcher's tool table with every registered name bound to a run
function (the behaviour of the individual run functions is irrelevant to
dispatch). -/
def devonthinkTools : List ToolEntry :=
  devonthinkToolNames.map fun n => { name := n, run := some fun _ => "" }

/-- The exact script text of the `is_running` tool (part_000). -/
def isRunningScript : String :=
  "\n    const app = Application(\"DEVONthink\");\n    const isRunning = app.running();\n    JSON.stringify(\x7b isRunning \x7d);\n  "

/-- JavaScript template-literal interpolation of a possibly `undefined`
value: `undefined` renders as the text `undefined`. -/
def jsInterp (o : Option String) : String := o.getD "undefined"

/-- `content.replace(/\x60/g, \"\\\x60\")` in `createRecord.ts`: escape
backticks only. -/
def escapeBackticks (s : String) : String :=
  String.join (s.data.map fun c => if c == '`' then "\\`" else String.singleton c)

/-- Input of `create_record` (`createRecord.ts`). -/
structure CreateRecordInput where
  name : String
  type : String
  content : Option String := none
  url : Option String := none
  parentGroupUuid : Option String := none
  databaseName : Option String := none

/-- The script text `createRecord.ts` synthesizes.  Every interpolation
is transcribed as written in the source: `name`, `type`, `url`,
`parentGroupUuid` and `databaseName` are spliced into the script verbatim
(no sanitizer, no escaper); only `content` has its backticks escaped. -/
def createRecordScript (inp : CreateRecordInput) : String :=
  "\n    (() => \x7b\n      const theApp = Application(\"DEVONthink\");\n      theApp.includeStandardAdditions = true;\n      \n      try \x7b\n        let targetDatabase;\n        if (\"" ++
  (inp.databaseName.getD "") ++
  "\") \x7b\n          const databases = theApp.databases();\n          targetDatabase = databases.find(db => db.name() === \"" ++
  jsInterp inp.databaseName ++
  "\");\n          if (!targetDatabase) \x7b\n            throw new Error(\"Database not found: " ++
  jsInterp inp.databaseName ++
  "\");\n          \x7d\n        \x7d else \x7b\n          targetDatabase = theApp.currentDatabase();\n        \x7d\n\n        // Get the parent group\n        let destinationGroup;\n        if (\"" ++
  (inp.parentGroupUuid.getD "") ++
  "\") \x7b\n          destinationGroup = theApp.getRecordWithUuid(\"" ++
  jsInterp inp.parentGroupUuid ++
  "\");\n          if (!destinationGroup) \x7b\n            throw new Error(\"Parent group with UUID not found: " ++
  jsInterp inp.parentGroupUuid ++
  "\");\n          \x7d\n        \x7d else \x7b\n          destinationGroup = targetDatabase.incomingGroup();\n        \x7d\n        \n        // Create the record properties\n        const recordProps = \x7b\n          name: \"" ++
  inp.name ++
  "\",\n          type: \"" ++
  inp.type ++
  "\"\n        \x7d;\n        \n        // Add content if provided\n        " ++
  (match inp.content with
   | some c => "recordProps.content = `" ++ escapeBackticks c ++ "`;"
   | none => "") ++
  "\n        \n        // Add URL if provided\n        " ++
  (match inp.url with
   | some u => "recordProps.URL = \"" ++ u ++ "\";"
   | none => "") ++
  "\n        \n        // Create the record\n        const newRecord = theApp.createRecordWith(recordProps, \x7b in: destinationGroup \x7d);\n        \n        if (newRecord) \x7b\n          return JSON.stringify(\x7b\n            success: true,\n            recordId: newRecord.id(),\n            name: newRecord.name(),\n            uuid: newRecord.uuid()\n          \x7d);\n        \x7d else \x7b\n          return JSON.stringify(\x7b\n            success: false,\n            error: \"Failed to create record\"\n          \x7d);\n        \x7d\n      \x7d catch (error) \x7b\n        return JSON.stringify(\x7b\n          success: false,\n          error: error.toString()\n        \x7d);\n      \x7d\n    \x7d)();\n  "

/-- A markdown record that lives in database `A` (state for C1). -/
def recC1 : DtRecord :=
  { id := 1, uuid := "U-1", name := "Doc", recordType := "markdown", databaseName := "A" }

/-- Application state with databases `A` and `B`, the record `recC1` in
`A`, and `A` current. -/
def stC1 : AppState :=
  { databases := [{ name := "A" }, { name := "B" }], records := [recC1],
    currentDatabaseName := some "A" }

/-- `create_record` input whose `name` contains a raw double quote. -/
def inpC2 : CreateRecordInput := { name := "x\"y", type := "markdown" }

/-- A record that exists in database `A` (state for C4). -/
def recC4 : DtRecord :=
  { id := 4, uuid := "U-4", name := "Victim", recordType := "markdown", databaseName := "A" }

/-- Application state in which `theApp.delete` reports `false`. -/
def stC4 : AppState :=
  { databases := [{ name := "A" }], records := [recC4],
    currentDatabaseName := some "A", deleteReturns := false }

/-- Application state whose only open database is `Main` (state for C5):
no database named `NoSuchDB` is open. -/
def stC5 : AppState :=
  { databases := [{ name := "Main" }], records := [], currentDatabaseName := some "Main" }

/-- The record `move_record` is asked to move (state for C6). -/
def recSrcC6 : DtRecord :=
  { id := 6, uuid := "SRC-1", name := "Doc6", recordType := "markdown",
    location := "/Inbox/", databaseName := "A" }

/-- A destination record that exists but is not a group. -/
def recDestC6 : DtRecord :=
  { id := 7, uuid := "DEST-UUID-Y", name := "Note7", recordType := "markdown",
    databaseName := "A" }

/-- Application state for the move scenarios: one database, the source
record, and a non-group destination record. -/
def stC6 : AppState :=
  { databases := [{ name := "A" }], records := [recSrcC6, recDestC6],
    currentDatabaseName := some "A" }

/-- Minimal application state for the validation-failure scenarios. -/
def stC8 : AppState := { databases := [], records := [] }

/-- First search hit for the limit scenarios (state for C10). -/
def hitC10a : DtRecord :=
  { id := 10, uuid := "H-A", name := "a", recordType := "markdown", databaseName := "A" }

/-- Second search hit for the limit scenarios. -/
def hitC10b : DtRecord :=
  { id := 11, uuid := "H-B", name := "b", recordType := "markdown", databaseName := "A" }

/-- Application state whose external search reports two matches. -/
def stC10 : AppState :=
  { databases := [{ name := "A" }], records := [hitC10a, hitC10b],
    currentDatabaseName := some "A",
    appSearch := fun _ _ _ _ => [hitC10a, hitC10b] }

/-- `move_record` input addressing `SRC-1` with the non-group destination. -/
def inpC6bad : MoveRecordInput :=
  { uuid := some "SRC-1", destinationGroupUuid := some "DEST-UUID-Y" }

/-- `move_record` input addressing `SRC-1` with a destination UUID that
resolves to nothing. -/
def inpC6missing : MoveRecordInput :=
  { uuid := some "SRC-1", destinationGroupUuid := some "MISSING-DEST" }

/-- `search` input with a negative limit. -/
def inpC10 : SearchInput := { query := "q", limit := some (-1) }

/-- The list the external search reports for a query when no group or
database parameter is supplied (scope is the current database's root, or
all databases). -/
def searchRaw (st : AppState) (q : String) : List DtRecord :=
  st.appSearch q (scopeForDatabase st (currentDatabase st)) none none

/-- `searchRaw` after the optional `recordType` filter. -/
def searchFiltered (st : AppState) (q : String) (rt : Option String) : List DtRecord :=
  match jsNonEmpty rt with
  | some t => (searchRaw st q).filter fun r => r.recordType == t
  | none => searchRaw st q

theorem strContains_append_left {t n : String} (s : String) (h : StrContains t n) :
    StrContains (s ++ t) n := by
  obtain ⟨p, q, rfl⟩ := h
  exact ⟨s ++ p, q, by simp [String.append_assoc]⟩

theorem strContains_append_right {s n : String} (t : String) (h : StrContains s n) :
    StrContains (s ++ t) n := by
  obtain ⟨p, q, rfl⟩ := h
  exact ⟨p, q ++ t, by simp [String.append_assoc]⟩

theorem formatJXAAssigns_contains {kvs : List (String × JXAValue)} {kv : String × JXAValue}
    (h : kv ∈ kvs) :
    StrContains (formatJXAAssigns kvs)
      ("obj[\"" ++ kv.1 ++ "\"] = " ++ formatValueForJXA kv.2 ++ "; ") := by
  induction kvs with
  | nil => cases h
  | cons hd tl ih =>
      rcases List.mem_cons.mp h with rfl | hmem
      · exact ⟨"", formatJXAAssigns tl, rfl⟩
      · exact strContains_append_left _ (ih hmem)

set_option maxRecDepth 100000 in
/-- C2: `createRecord.ts` interpolates caller strings untreated.  At the
input whose `name` is `x"y` — a string the Sanitizer rejects — the
operation still synthesizes a script, the raw name (double quote
included) occurs verbatim inside the `recordProps` fragment of the
generated source, and the escaped rendering of the name does not occur
anywhere in it: the name reached the script without passing through the
Sanitizer or the Formatter. -/
theorem C2_createRecord_unsanitized :
    isJXASafeString inpC2.name = false ∧
    occursStr "name: \"x\"y\"" (createRecordScript inpC2) = true ∧
    occursStr (escapeStringForJXA inpC2.name) (createRecordScript inpC2) = false := by
  decide

/-- C4 (code bug witness): in a state where the record exists but
`theApp.delete` reports `false`, the `delete_record` script returns
`success: false` with no `error` field at all, violating the invariant
that a `success:false` result always carries a non-empty error string. -/
theorem C4_deleteRecord_success_false_without_error :
    (deleteRecordRun stC4 { uuid := some "U-4" }).result =
      { success := false, error := none } ∧
    (findRecordByUuid stC4 "U-4").isSome = true ∧
    (deleteRecordRun stC4 { uuid := some "U-4" }).ranScript = true := by
  decide

/-- C3 counterexample: the `is_running` script (part_000) returns its
result payload as a shorthand object literal `JSON.stringify(\x7b
isRunning \x7d)` and contains no bracket assignment at all, so the claim
that every generated script builds its returned result object by
declaring an empty object and assigning each key via bracket assignment
is false. -/
theorem C3_counterexample :
    occursStr "JSON.stringify(\x7b isRunning \x7d)" isRunningScript = true ∧
    occursStr "] = " isRunningScript = false := by
  decide

/-- C3 (amended): every structured object the Formatter emits is a
self-invoking block that declares an empty object, assigns each key via
bracket assignment, and returns the bound identifier; the emitted
expression begins with `(`, never with a direct object-literal brace.
(The original claim's universal statement over all generated scripts is
refuted by the counterexample.) -/
theorem C3_formatter_bracket_assignment (kvs : List (String × JXAValue)) :
    formatValueForJXA (.objV kvs) =
      "(() => \x7b const obj = \x7b\x7d; " ++ formatJXAAssigns kvs ++
        "return obj; \x7d)()" ∧
    (∀ kv ∈ kvs, StrContains (formatValueForJXA (.objV kvs))
      ("obj[\"" ++ kv.1 ++ "\"] = " ++ formatValueForJXA kv.2 ++ "; ")) ∧
    (formatValueForJXA (.objV kvs)).data.head? = some '(' := by
  refine ⟨rfl, ?_, ?_⟩
  · intro kv h
    exact strContains_append_right _ (strContains_append_left _ (formatJXAAssigns_contains h))
  · rfl

/-- C3 witness: at the one-key object `[("k", null)]` the Formatter's
output contains the bracket assignment for the key. -/
theorem C3_witness :
    StrContains (formatValueForJXA (.objV [("k", JXAValue.nullV)])) "obj[\"k\"] = null; " := by
  have h := (C3_formatter_bracket_assignment [("k", JXAValue.nullV)]).2.1
    ("k", JXAValue.nullV) (by simp)
  have heq : ("obj[\"" ++ ("k", JXAValue.nullV).1 ++ "\"] = " ++
      formatValueForJXA ("k", JXAValue.nullV).2 ++ "; ") = "obj[\"k\"] = null; " := rfl
  rwa [heq] at h

/-- C5: database resolution by name.  A database returned by
`findDatabase` has exactly the requested name (Lean string equality is
case-sensitive); the first open database with that name wins; when no
open database matches, `findDatabase` yields nothing and the generated
`lookup_record` script fails with exactly `Database not found: <name>`;
the spec-modelled resolver at `\x7bid: 42, databaseName: "NoSuchDB"\x7d`
yields no record and that same error; and matching is case-sensitive
(`mydb` does not find `MyDB`). -/
theorem C5_database_resolution :
    (∀ (dbs : List DtDatabase) (name : String) (db : DtDatabase),
      findDatabase dbs name = some db → db.name = name) ∧
    (∀ (pre post : List DtDatabase) (db : DtDatabase) (name : String),
      db.name = name → (∀ d ∈ pre, d.name ≠ name) →
      findDatabase (pre ++ db :: post) name = some db) ∧
    (∀ (st : AppState) (name lt v : String), name.isEmpty = false →
      (∀ d ∈ st.databases, d.name ≠ name) →
      (lookupRecordRun st { lookupType := lt, value := v, databaseName := some name }).result =
        { success := false, error := some ("Database not found: " ++ name) }) ∧
    resolveRecordSpec stC5 { id := some 42, databaseName := some "NoSuchDB" } =
      { record := none, error := some "Database not found: NoSuchDB" } ∧
    findDatabase [{ name := "MyDB" }] "mydb" = none := by
  refine ⟨?_, ?_, ?_, by decide, by decide⟩
  · intro dbs name db h
    have := List.find?_some h
    exact eq_of_beq this
  · intro pre post db name hdb hpre
    induction pre with
    | nil =>
        simp only [List.nil_append, findDatabase]
        exact List.find?_cons_of_pos _ (by simp [hdb])
    | cons d pre' ih =>
        have hd : (d.name == name) = false := by
          simp [hpre d (List.mem_cons_self d pre')]
        have ih' := ih fun x hx => hpre x (List.mem_cons_of_mem d hx)
        simp only [findDatabase, List.cons_append] at ih' ⊢
        simp only [List.find?_cons, hd, cond_false]
        exact ih'
  · intro st name lt v hne hnone
    have hfind : findDatabase st.databases name = none := by
      refine List.find?_eq_none.mpr fun d hd => ?_
      simp [hnone d hd]
    simp [lookupRecordRun, jsNonEmpty, hne, hfind]

/-- C5 witness: looking a record up with `databaseName: "NoSuchDB"` in the
state whose only open database is `Main` fails with the exact
`Database not found: NoSuchDB` error. -/
theorem C5_witness :
    (lookupRecordRun stC5
        { lookupType := "filename", value := "x", databaseName := some "NoSuchDB" }).result =
      { success := false, error := some ("Database not found: " ++ "NoSuchDB") } :=
  C5_database_resolution.2.2.1 stC5 "NoSuchDB" "filename" "x" (by decide) (by decide)

/-- C6 counterexample: with a `destinationGroupUuid` that resolves to an
existing non-group record, `move_record` returns `success: false` — but
the error message (`Destination is not a group. Record type: markdown`)
does not mention the destination UUID, so the claim that the error
mentions the destination UUID in this case is false. -/
theorem C6_counterexample :
    (moveRecordRun stC6 inpC6bad).result.success = false ∧
    occursStr "DEST-UUID-Y" (((moveRecordRun stC6 inpC6bad).result.error).getD "") = false ∧
    (moveRecordRun stC6 inpC6bad).result.error =
      some "Error: Destination is not a group. Record type: markdown" ∧
    (moveRecordRun stC6 inpC6bad).state = stC6 := by
  refine ⟨by decide, by decide, by decide, rfl⟩

/-- C6 (amended): when the record to move resolves but the
`destinationGroupUuid` does not resolve to any record, `move_record`
returns `success: false` with an error that mentions the destination
UUID, and the application state is unchanged — no move is performed.
(When the destination resolves to a non-group the move is likewise not
performed but the error names the record type instead of the UUID; see
the counterexample.) -/
theorem C6_move_destination_not_found (st : AppState) (u y : String)
    (hu : isJXASafeString u = true) (hy : isJXASafeString y = true)
    (hue : u.isEmpty = false) (hye : y.isEmpty = false)
    (hsrc : (findRecordByUuid st u).isSome = true)
    (hdest : findRecordByUuid st y = none) :
    (moveRecordRun st { uuid := some u, destinationGroupUuid := some y }).result =
      { success := false
        error := some ("Error: Destination group with UUID not found: " ++ y) } ∧
    StrContains ("Error: Destination group with UUID not found: " ++ y) y ∧
    (moveRecordRun st { uuid := some u, destinationGroupUuid := some y }).state = st := by
  obtain ⟨r, hr⟩ := Option.isSome_iff_exists.mp hsrc
  refine ⟨?_, ⟨"Error: Destination group with UUID not found: ", "", by simp⟩, ?_⟩ <;>
    simp [moveRecordRun, hu, hy, hue, hye, jsNonEmpty, getDatabase, getRecord, hr, hdest]

/-- C6 witness: moving `SRC-1` to the nonexistent destination
`MISSING-DEST` in the concrete state fails with the UUID-mentioning
error and leaves the state unchanged. -/
theorem C6_witness :
    (moveRecordRun stC6 inpC6missing).result =
      { success := false
        error := some ("Error: Destination group with UUID not found: " ++ "MISSING-DEST") } ∧
    (moveRecordRun stC6 inpC6missing).state = stC6 := by
  have h := C6_move_destination_not_found stC6 "SRC-1" "MISSING-DEST"
    (by decide) (by decide) (by decide) (by decide) (by decide) (by decide)
  exact ⟨h.1, h.2.2⟩

/-- C9: a tool call whose name matches no entry of the dispatcher's tool
table yields the `MethodNotFound` failure `Unknown tool: <name>`; no
entry's run function is reached (the outcome carries no run output). -/
theorem C9_unknown_tool_method_not_found (tools : List ToolEntry) (name args : String)
    (h : ∀ t ∈ tools, t.name ≠ name) :
    dispatchToolCall tools name args = .methodNotFound ("Unknown tool: " ++ name) := by
  unfold dispatchToolCall
  have hfind : tools.find? (fun t => t.name == name) = none :=
    List.find?_eq_none.mpr fun t ht => by simp [h t ht]
  rw [hfind]

/-- C9 witness: dispatching `not_a_tool` against the registered
28-tool table is a `MethodNotFound` failure. -/
theorem C9_witness :
    dispatchToolCall devonthinkTools "not_a_tool" "" =
      .methodNotFound ("Unknown tool: " ++ "not_a_tool") :=
  C9_unknown_tool_method_not_found devonthinkTools "not_a_tool" "" (by decide)

/-- C1 counterexample: the record `U-1` lives in database `A`; resolving
it through `rename_record` succeeds without a `databaseName` but fails
when `databaseName: "B"` is supplied alongside the same UUID — supplying
a `databaseName` together with a `uuid` changed whether resolution
succeeds, so the claim is false. -/
theorem C1_counterexample :
    (renameRecordRun stC1 { uuid := "U-1", newName := "N", databaseName := some "B" }).result =
      { success := false, error := some "Record with UUID U-1 not found in database B" } ∧
    (renameRecordRun stC1 { uuid := "U-1", newName := "N" }).result = { success := true } := by
  decide

/-- C10 counterexample: with `limit: -1` (the schema accepts any number)
and two external matches, the search returns one result — more than the
requested limit — because `slice(0, -1)` drops the last element instead
of taking the first `limit` elements; `totalCount` is 2.  The claim that
the search returns at most `limit` results, the first `limit` elements
of the filtered list, is therefore false at this input. -/
theorem C10_counterexample :
    ((searchRun stC10 inpC10).result.results.getD []).length = 1 ∧
    ¬ ((((searchRun stC10 inpC10).result.results.getD []).length : Int) ≤ -1) ∧
    (searchRun stC10 inpC10).result.totalCount = some 2 ∧
    (searchRun stC10 inpC10).result.success = true := by
  refine ⟨by decide, by decide, by decide, by decide⟩

/-- C1 (amended): for `get_record_by_identifier` with a nonempty `uuid`
and a sanitizer-safe `databaseName`, the outcome is identical with and
without the `databaseName`: the UUID branch of the resolution ignores
the database entirely.  (The original universal claim over every
record-addressed operation is refuted by the counterexample:
`rename_record` additionally verifies the resolved record's database
against a supplied `databaseName` and fails on mismatch.) -/
theorem C1_uuid_ignores_databaseName (st : AppState) (u : String) (i : Option Int)
    (dbn : String) (hue : u.isEmpty = false) (hdbn : isJXASafeString dbn = true) :
    getRecordByIdentifierRun st { uuid := some u, id := i, databaseName := some dbn } =
      getRecordByIdentifierRun st { uuid := some u, id := i, databaseName := none } := by
  cases hu : isJXASafeString u <;>
    simp [getRecordByIdentifierRun, Option.any, hu, hdbn, jsNonEmpty, hue]

/-- C1 witness: in the concrete two-database state, resolving `U-1` by
UUID gives the same (successful) outcome whether or not
`databaseName: "B"` is supplied. -/
theorem C1_witness :
    (getRecordByIdentifierRun stC1 { uuid := some "U-1", databaseName := some "B" } =
      getRecordByIdentifierRun stC1 { uuid := some "U-1", databaseName := none }) ∧
    (getRecordByIdentifierRun stC1
      { uuid := some "U-1", databaseName := some "B" }).result.success = true :=
  ⟨C1_uuid_ignores_databaseName stC1 "U-1" none "B" (by decide) (by decide), by decide⟩

/-- C8: the Sanitizer rejects every string containing a double quote, a
backslash, or a disallowed control character; and an operation receiving
such a string in a validated field returns the validation failure naming
the offending field with the state untouched and no script synthesized
(`ranScript = false`): `rename_record` for its `uuid` and `newName`
fields, `search` for its `query` field. -/
theorem C8_unsafe_strings_rejected :
    (∀ (s : String) (c : Char), c ∈ s.data →
      (c = '"' ∨ c = '\\' ∨ isDisallowedControl c = true) → isJXASafeString s = false) ∧
    (∀ (st : AppState) (inp : RenameRecordInput), isJXASafeString inp.uuid = false →
      renameRecordRun st inp =
        ⟨{ success := false, error := some "UUID contains invalid characters" }, st, false⟩) ∧
    (∀ (st : AppState) (inp : RenameRecordInput), isJXASafeString inp.uuid = true →
      isJXASafeString inp.newName = false →
      renameRecordRun st inp =
        ⟨{ success := false, error := some "New name contains invalid characters" },
          st, false⟩) ∧
    (∀ (st : AppState) (inp : SearchInput), isJXASafeString inp.query = false →
      searchRun st inp =
        ⟨{ success := false, error := some "Search query contains invalid characters" },
          st, false⟩) := by
  refine ⟨?_, ?_, ?_, ?_⟩
  · intro s c hc hbad
    simp only [isJXASafeString, List.all_eq_false]
    refine ⟨c, hc, ?_⟩
    rcases hbad with rfl | rfl | hctl
    · simp
    · simp
    · simp [hctl]
  · intro st inp h
    simp [renameRecordRun, h]
  · intro st inp h1 h2
    simp [renameRecordRun, h1, h2]
  · intro st inp h
    simp [searchRun, h]

/-- C8 witness: a double-quoted uuid is unsafe, `rename_record` rejects
it naming the UUID field, and `search` rejects a backslashed query
naming the query field — in both cases without running a script. -/
theorem C8_witness :
    isJXASafeString "bad\"uuid" = false ∧
    renameRecordRun stC8 { uuid := "bad\"uuid", newName := "n" } =
      ⟨{ success := false, error := some "UUID contains invalid characters" }, stC8, false⟩ ∧
    searchRun stC8 { query := "bad\\query" } =
      ⟨{ success := false, error := some "Search query contains invalid characters" },
        stC8, false⟩ :=
  ⟨by decide, C8_unsafe_strings_rejected.2.1 stC8 _ (by decide),
    C8_unsafe_strings_rejected.2.2.2 stC8 _ (by decide)⟩

/-- C10 (amended): for a nonnegative `limit`, a safe query and no group
parameter, search succeeds with exactly the first `limit` elements of the
recordType-filtered match list (so at most `limit` results), with
`totalCount` the full filtered count; omitting `limit` behaves exactly
like `limit: 50`; zero matches give an empty results array with
`totalCount 0` (the formula specializes to that).  (The original claim,
quantified over every caller-supplied `limit`, fails for negative limits
— `slice(0, limit)` then drops elements from the end instead of taking
the first `limit`; see the counterexample.) -/
theorem C10_search_limit (st : AppState) (q : String) (rt : Option String) (lim : Int)
    (hq : isJXASafeString q = true) (hlim : 0 ≤ lim) :
    (searchRun st { query := q, recordType := rt, limit := some lim }).result =
      { success := true
        results := some (((searchFiltered st q rt).take lim.toNat).map extractSearchHit)
        totalCount := some (searchFiltered st q rt).length } ∧
    ((searchRun st { query := q, recordType := rt, limit := some lim }).result.results.getD []).length ≤ lim.toNat ∧
    searchRun st { query := q, recordType := rt, limit := none } =
      searchRun st { query := q, recordType := rt, limit := some 50 } := by
  have hfirst : (searchRun st { query := q, recordType := rt, limit := some lim }).result =
      { success := true
        results := some (((searchFiltered st q rt).take lim.toNat).map extractSearchHit)
        totalCount := some (searchFiltered st q rt).length } := by
    have hl : ¬ lim < 0 := not_lt.mpr hlim
    cases hE : (searchRaw st q).isEmpty
    · have hne := hE
      simp only [searchRaw] at hne
      simp [searchRun, hq, jsNonEmpty, jsNonZero, Option.any, Option.getD, Option.isSome,
        getDatabase, searchFiltered, searchRaw, hne, jsSliceTo, hl]
    · have hnil : st.appSearch q (scopeForDatabase st (currentDatabase st)) none none = [] := by
        simpa [searchRaw, List.isEmpty_iff] using hE
      simp [searchRun, hq, jsNonEmpty, jsNonZero, Option.any, Option.getD, Option.isSome,
        getDatabase, searchFiltered, searchRaw, hnil, jsSliceTo, hl]
      rcases rt with _ | t
      · simp
      · cases ht : t.isEmpty <;> simp [ht]
  refine ⟨hfirst, ?_, rfl⟩
  rw [hfirst]
  simp only [Option.getD_some, List.length_map]
  exact List.length_take_le _ _

/-- C10 witness: with two external matches and `limit: 1`, the search
returns exactly the first hit and reports `totalCount 2`. -/
theorem C10_witness :
    (searchRun stC10 { query := "q", recordType := none, limit := some 1 }).result =
      { success := true, results := some [extractSearchHit hitC10a], totalCount := some 2 } := by
  have h := C10_search_limit stC10 "q" none 1 (by decide) (by decide)
  exact h.1.trans (by decide)

theorem find?_updateFirstRecord (p : DtRecord → Bool) (f : DtRecord → DtRecord)
    (l : List DtRecord) (r : DtRecord) (hfind : l.find? p = some r) (hpf : p (f r) = true) :
    (updateFirstRecord p f l).find? p = some (f r) := by
  induction l with
  | nil => simp at hfind
  | cons a t ih =>
      cases hpa : p a with
      | true =>
          rw [List.find?_cons_of_pos t hpa] at hfind
          obtain rfl := Option.some.inj hfind
          simp only [updateFirstRecord, hpa, if_true]
          exact List.find?_cons_of_pos t hpf
      | false =>
          rw [List.find?_cons_of_neg t (by simp [hpa])] at hfind
          simp only [updateFirstRecord, hpa, Bool.false_eq_true, if_false]
          rw [List.find?_cons_of_neg _ (by simp [hpa])]
          exact ih hfind

theorem updateFirstRecord_self (p : DtRecord → Bool) (f : DtRecord → DtRecord)
    (l : List DtRecord) (r : DtRecord) (hfind : l.find? p = some r) (hfr : f r = r) :
    updateFirstRecord p f l = l := by
  induction l with
  | nil => rfl
  | cons a t ih =>
      cases hpa : p a with
      | true =>
          rw [List.find?_cons_of_pos t hpa] at hfind
          obtain rfl := Option.some.inj hfind
          simp [updateFirstRecord, hpa, hfr]
      | false =>
          rw [List.find?_cons_of_neg t (by simp [hpa])] at hfind
          simp [updateFirstRecord, hpa, ih hfind]

theorem filter_filter_self {α : Type} (p : α → Bool) (l : List α) :
    (l.filter p).filter p = l.filter p := by
  induction l with
  | nil => rfl
  | cons a t ih =>
      cases hpa : p a <;> simp [List.filter_cons, hpa, ih]

theorem removeTagFilter_idem (tags l : List String) :
    removeTagFilter tags (removeTagFilter tags l) = removeTagFilter tags l :=
  filter_filter_self _ _

/-- After the `remove_tags` mutation, looking the record up again finds
the updated record, and applying the same removal to it leaves the state
fixed. -/
theorem applyRemoveTags_state (st : AppState) (record : DtRecord) (tags : List String)
    (hfind : st.records.find? (fun r => r.uuid == record.uuid) = some record) :
    (applyRemoveTags st record tags).records.find? (fun r => r.uuid == record.uuid) =
      some { record with tags := removeTagFilter tags record.tags } ∧
    applyRemoveTags (applyRemoveTags st record tags)
        { record with tags := removeTagFilter tags record.tags } tags =
      applyRemoveTags st record tags := by
  have hf2 : (applyRemoveTags st record tags).records.find? (fun r => r.uuid == record.uuid) =
      some { record with tags := removeTagFilter tags record.tags } :=
    find?_updateFirstRecord _ _ _ _ hfind (by simp)
  refine ⟨hf2, ?_⟩
  have hg : updateFirstRecord (fun r => r.uuid == record.uuid)
      (fun r => { r with tags := removeTagFilter tags (removeTagFilter tags record.tags) })
      (applyRemoveTags st record tags).records = (applyRemoveTags st record tags).records := by
    rw [removeTagFilter_idem]
    exact updateFirstRecord_self _ _ _ _ hf2 rfl
  simp only [applyRemoveTags] at hg ⊢
  simp [hg]

/-- C7: `remove_tags` is idempotent — running it a second time with the
same tag list leaves the application state (in particular the record's
tag set) exactly as it was after the first run, because the removal is
computed by filtering the existing tags against the removal set. -/
theorem C7_removeTags_idempotent (st : AppState) (inp : RemoveTagsInput) :
    (removeTagsRun (removeTagsRun st inp).state inp).state = (removeTagsRun st inp).state := by
  cases h1 : isJXASafeString inp.uuid
  · simp [removeTagsRun, h1]
  · cases h2 : inp.tags.find? fun t => !(isJXASafeString t)
    · cases h3 : inp.databaseName.any fun d => !(isJXASafeString d)
      · cases h4 : inp.uuid.isEmpty
        · have hju : jsNonEmpty (some inp.uuid) = some inp.uuid := by simp [jsNonEmpty, h4]
          cases h5 : findRecordByUuid st inp.uuid with
          | none => simp [removeTagsRun, h1, h2, h3, hju, getRecord, h5]
          | some record =>
              have h5' : st.records.find? (fun r => r.uuid == inp.uuid) = some record := h5
              have hbeq : (record.uuid == inp.uuid) = true := by
                simpa using List.find?_some h5'
              have huuid : record.uuid = inp.uuid := eq_of_beq hbeq
              have hfind : st.records.find? (fun r => r.uuid == record.uuid) = some record := by
                rw [huuid]; exact h5'
              cases h6 : (jsNonEmpty inp.databaseName).any fun d => record.databaseName != d
              · obtain ⟨hf2, hidem⟩ := applyRemoveTags_state st record inp.tags hfind
                have hpredeq : (fun r : DtRecord => r.uuid == record.uuid) =
                    (fun r => r.uuid == inp.uuid) := by
                  funext r; rw [huuid]
                rw [hpredeq] at hf2
                simp only [removeTagsRun, h1, h2, h3, hju, Bool.not_true,
                  Bool.false_eq_true, if_false, getRecord, findRecordByUuid, h5', hf2, h6]
                simpa using hidem
              · simp [removeTagsRun, h1, h2, h3, hju, getRecord, h5, h6]
        · have hju : jsNonEmpty (some inp.uuid) = none := by simp [jsNonEmpty, h4]
          simp [removeTagsRun, h1, h2, h3, hju, getRecord]
      · simp [removeTagsRun, h1, h2, h3]
    · simp [removeTagsRun, h1, h2]

end DtMcp
